import Mathlib

/-!
Verification development for the crypto dashboard repository.

The two stateful modules under verification are the quote hook
(`useCryptoPrice.ts`, modelled in namespace `UseCryptoPrice`) and the
narrative service (`services/aiAnalysis.ts`, modelled in namespace
`AiAnalysis`).  JavaScript `Map` objects are modelled as association
lists in insertion order, JavaScript numbers as exact rationals, and
each `fetch` outcome as an explicit input datum, so every function is
a pure, executable Lean definition.
-/

/-- Model of a JavaScript `Map<string, α>`: association list in insertion
order.  `Map.get` returns the binding of the first matching key. -/
def mapGet {α : Type} : List (String × α) → String → Option α
  | [], _ => none
  | (k', v') :: rest, k => if k' == k then some v' else mapGet rest k

/-- Model of `Map.set`: replace the binding in place if the key is present,
otherwise append the new binding. -/
def mapSet {α : Type} : List (String × α) → String → α → List (String × α)
  | [], k, v => [(k, v)]
  | (k', v') :: rest, k, v =>
      if k' == k then (k, v) :: rest else (k', v') :: mapSet rest k v

/-- JavaScript `x || d` applied to an optional number: `undefined`, `null`
and `0` are falsy and select the default. -/
def jsOrNum (x : Option ℚ) (d : ℚ) : ℚ :=
  match x with
  | some v => if v = 0 then d else v
  | none => d

/-- JavaScript `x || d` applied to an optional string: `undefined`, `null`
and the empty string are falsy and select the default. -/
def jsOrStr (x : Option String) (d : String) : String :=
  match x with
  | some s => if s = "" then d else s
  | none => d

namespace UseCryptoPrice

/-- The merged market snapshot produced by a quote fetch (the fields of the
`newData` object in `useCryptoPrice.ts`, without the UI-only `loading` and
`error` fields). -/
structure CryptoQuote where
  price : ℚ
  priceChange24h : ℚ
  priceChangePercent24h : ℚ
  marketCap : ℚ
  volume24h : ℚ
  dominance : ℚ
  circulatingSupply : ℚ
  name : String
  symbol : String
deriving DecidableEq

/-- One slot of the freshness cache: `{ data, timestamp }`. -/
structure CacheEntry where
  data : CryptoQuote
  timestamp : Nat
deriving DecidableEq

/-- The two process-wide maps of `useCryptoPrice.ts`: the freshness cache
`cache` (keys `"crypto-" ++ cryptoId`) and the fallback store
`lastSuccessfulPrices` (keys `cryptoId`). -/
structure FetchState where
  cache : List (String × CacheEntry)
  lastSuccessfulPrices : List (String × CryptoQuote)
deriving DecidableEq

/-- What a run of `fetchCryptoData` makes visible through `setData`: the
quote it settles on plus the `error` field of the final state update. -/
structure FetchOutcome where
  quote : CryptoQuote
  error : Option String
deriving DecidableEq

/-- The fields of the market-snapshot response body that the hook reads. -/
structure CoinGeckoMarketData where
  current_price_usd : ℚ
  price_change_24h : ℚ
  price_change_percentage_24h : ℚ
  market_cap_usd : ℚ
  total_volume_usd : ℚ
  circulating_supply : ℚ
deriving DecidableEq

/-- The coin payload of a successful market-snapshot request. -/
structure CoinGeckoCoin where
  name : String
  symbol : String
  market_data : CoinGeckoMarketData
deriving DecidableEq

/-- Outcome of the primary market-snapshot request.  `failure` covers a
rejected `fetch`, a non-ok HTTP status (the hook throws on `!response.ok`)
and a malformed body: each raises an exception inside the `try` block. -/
inductive PrimaryResult where
  | failure
  | success (coin : CoinGeckoCoin)
deriving DecidableEq

/-- The `market_cap_percentage` mapping of the global-totals payload:
short asset codes to dominance percentages. -/
structure GlobalData where
  market_cap_percentage : List (String × ℚ)
deriving DecidableEq

/-- Outcome of the secondary global-totals request.  A rejected `fetch`
(`netError`) raises an exception inside the `try` block; a response with a
non-ok status (`notOk`) does not. -/
inductive GlobalResult where
  | netError
  | notOk
  | ok (globalData : GlobalData)
deriving DecidableEq

/-- `CACHE_DURATION` of `useCryptoPrice.ts`: one minute, in milliseconds. -/
def CACHE_DURATION : Nat := 60000

/-- The per-asset fallback quote for bitcoin (`basicFallback.bitcoin`). -/
def bitcoinFallback : CryptoQuote :=
  { price := 120000
    priceChange24h := 1200
    priceChangePercent24h := 1.01
    marketCap := 2400000000000
    volume24h := 28000000000
    dominance := 52.0
    circulatingSupply := 19.8
    name := "Bitcoin"
    symbol := "BTC" }

/-- The per-asset fallback quote for ethereum (`basicFallback.ethereum`). -/
def ethereumFallback : CryptoQuote :=
  { price := 4200
    priceChange24h := 45
    priceChangePercent24h := 1.08
    marketCap := 505000000000
    volume24h := 15000000000
    dominance := 19.5
    circulatingSupply := 120.4
    name := "Ethereum"
    symbol := "ETH" }

/-- The per-asset fallback quote for solana (`basicFallback.solana`). -/
def solanaFallback : CryptoQuote :=
  { price := 280.00
    priceChange24h := 8.50
    priceChangePercent24h := 3.13
    marketCap := 135000000000
    volume24h := 4500000000
    dominance := 0
    circulatingSupply := 482.5
    name := "Solana"
    symbol := "SOL" }

/-- `basicFallback[cryptoId] || basicFallback.bitcoin`: the static demo
quote for the asset key, defaulting to bitcoin for unknown keys. -/
def basicFallback (cryptoId : String) : CryptoQuote :=
  if cryptoId == "bitcoin" then bitcoinFallback
  else if cryptoId == "ethereum" then ethereumFallback
  else if cryptoId == "solana" then solanaFallback
  else bitcoinFallback

/-- The `catch` branch of `fetchCryptoData`: consult the fallback store and
fall back to the static demo quote; neither map is written. -/
def fetchFallbackPath (cryptoId : String) (st : FetchState) :
    FetchOutcome × FetchState :=
  match mapGet st.lastSuccessfulPrices cryptoId with
  | some lastSuccessful =>
      ({ quote := lastSuccessful
         error := some "Using cached data - API temporarily unavailable" }, st)
  | none =>
      ({ quote := basicFallback cryptoId
         error := some "Using demo data - API unavailable and no cached data" }, st)

/-- The `newData` object merged from the coin payload and the computed
dominance; the ticker symbol is upper-cased. -/
def mergeQuote (coin : CoinGeckoCoin) (dominance : ℚ) : CryptoQuote :=
  { price := coin.market_data.current_price_usd
    priceChange24h := coin.market_data.price_change_24h
    priceChangePercent24h := coin.market_data.price_change_percentage_24h
    marketCap := coin.market_data.market_cap_usd
    volume24h := coin.market_data.total_volume_usd
    dominance := dominance
    circulatingSupply := coin.market_data.circulating_supply
    name := coin.name
    symbol := coin.symbol.toUpper }

/-- The success epilogue of `fetchCryptoData`: write the merged quote to
both the freshness cache and the fallback store and surface it without an
error. -/
def commitSuccess (cryptoId : String) (now : Nat) (newData : CryptoQuote)
    (st : FetchState) : FetchOutcome × FetchState :=
  ({ quote := newData, error := none },
   { cache := mapSet st.cache ("crypto-" ++ cryptoId)
       { data := newData, timestamp := now }
     lastSuccessfulPrices := mapSet st.lastSuccessfulPrices cryptoId newData })

/-- The body of `fetchCryptoData` past the freshness-cache check: the two
network requests, dominance computation, merge and commit, with every
exception routed to the `catch` branch. -/
def fetchNetworkPath (cryptoId : String) (now : Nat) (primary : PrimaryResult)
    (globalRes : GlobalResult) (st : FetchState) : FetchOutcome × FetchState :=
  match primary with
  | .failure => fetchFallbackPath cryptoId st
  | .success coin =>
      match globalRes with
      | .netError => fetchFallbackPath cryptoId st
      | .notOk => commitSuccess cryptoId now (mergeQuote coin 0) st
      | .ok globalData =>
          let dominance : ℚ :=
            if cryptoId == "bitcoin" then
              jsOrNum (mapGet globalData.market_cap_percentage "btc") 50
            else if cryptoId == "ethereum" then
              jsOrNum (mapGet globalData.market_cap_percentage "eth") 20
            else 0
          commitSuccess cryptoId now (mergeQuote coin dominance) st

/-- Model of one invocation of `fetchCryptoData`.  `now` is `Date.now()`;
`primary` and `globalRes` are the outcomes the two `fetch` calls would
produce if reached.  Returns the visible outcome and the new map state. -/
def fetchCryptoData (cryptoId : String) (now : Nat) (primary : PrimaryResult)
    (globalRes : GlobalResult) (st : FetchState) : FetchOutcome × FetchState :=
  match mapGet st.cache ("crypto-" ++ cryptoId) with
  | some cached =>
      if now - cached.timestamp < CACHE_DURATION then
        ({ quote := cached.data, error := none }, st)
      else fetchNetworkPath cryptoId now primary globalRes st
  | none => fetchNetworkPath cryptoId now primary globalRes st

/-- The freshness-cache test of `fetchCryptoData`:
`cached && (now - cached.timestamp) < CACHE_DURATION`. -/
def freshHit (st : FetchState) (cryptoId : String) (now : Nat) : Bool :=
  match mapGet st.cache ("crypto-" ++ cryptoId) with
  | some cached => now - cached.timestamp < CACHE_DURATION
  | none => false

/-- The initial, empty state of the two maps. -/
def emptyFetchState : FetchState :=
  { cache := [], lastSuccessfulPrices := [] }

end UseCryptoPrice

namespace AiAnalysis

/-- Model of JavaScript `x.toFixed(2)` over exact rationals: sign of the
argument, then the magnitude rounded to two decimals with ties away from
zero, printed with exactly two fraction digits (binary floating-point
artifacts are not modelled). -/
def toFixed2 (x : ℚ) : String :=
  let sign := if x < 0 then "-" else ""
  let y := if x < 0 then -x else x
  let n : Nat := (Rat.floor (y * 100 + 1 / 2)).toNat
  let frac := n % 100
  sign ++ toString (n / 100) ++ "." ++
    (if frac < 10 then "0" ++ toString frac else toString frac)

/-- The input record of `getAIAnalysis` (`AIAnalysisRequest`). -/
structure AIAnalysisRequest where
  cryptoName : String
  symbol : String
  currentPrice : ℚ
  priceChangePercent24h : ℚ
  marketCap : ℚ
  volume24h : ℚ
deriving DecidableEq

/-- One cited source extracted from a URL-citation annotation. -/
structure SourceRef where
  title : String
  url : String
  source : String
deriving DecidableEq

/-- The result record of a narrative fetch (`AIAnalysisResponse`); the
optional `error` field is never set on the paths modelled here, so it is
omitted. -/
structure AIAnalysisResponse where
  analysis : String
  isRealAnalysis : Bool
  sources : List SourceRef
deriving DecidableEq

/-- The `url_citation` object of a citation annotation. -/
structure UrlCitation where
  title : Option String
  url : String
deriving DecidableEq

/-- One annotation attached to an `output_text` content part. -/
structure CitationAnn where
  type : String
  url_citation : Option UrlCitation
deriving DecidableEq

/-- One content part of a message output item. -/
structure ContentItem where
  type : String
  text : Option String
  annotations : Option (List CitationAnn)
deriving DecidableEq

/-- One element of the response's `output` list. -/
structure OutputItem where
  type : String
  content : Option (List ContentItem)
deriving DecidableEq

/-- The narrative endpoint's HTTP response as far as the service reads it:
the `ok` flag, the status code, the error message of a non-ok body, and
the `output` list of an ok body. -/
structure OpenAIHttpResponse where
  ok : Bool
  status : Nat
  errorMessage : Option String
  output : Option (List OutputItem)
deriving DecidableEq

/-- The environment of one narrative fetch: the configured credential and
the outcome of the `fetch` call (`none` models a rejected promise, i.e. a
network error). -/
structure OpenAIEnv where
  apiKey : Option String
  http : Option OpenAIHttpResponse
deriving DecidableEq

/-- `CACHE_DURATION` of `aiAnalysis.ts`: five minutes, in milliseconds. -/
def CACHE_DURATION : Nat := 300000

/-- Model of JavaScript `s.trim()` (a platform builtin, not repository
code): strip leading and trailing whitespace characters. -/
def jsTrim (s : String) : String :=
  ⟨((s.data.dropWhile Char.isWhitespace).reverse.dropWhile
      Char.isWhitespace).reverse⟩

/-- One slot of the analysis cache: `{ data, timestamp }`. -/
structure AnalysisCacheEntry where
  data : AIAnalysisResponse
  timestamp : Nat
deriving DecidableEq

/-- One slot of `latestSuccessfulAnalysis`:
`{ analysis, timestamp, cryptoData }`. -/
structure LatestAnalysisEntry where
  analysis : String
  timestamp : Nat
  cryptoData : AIAnalysisRequest
deriving DecidableEq

/-- The two process-wide maps of `aiAnalysis.ts`. -/
structure AnalysisState where
  analysisCache : List (String × AnalysisCacheEntry)
  latestSuccessfulAnalysis : List (String × LatestAnalysisEntry)
deriving DecidableEq

/-- The initial, empty state of the two maps. -/
def emptyAnalysisState : AnalysisState :=
  { analysisCache := [], latestSuccessfulAnalysis := [] }

/-- The error message `getAIAnalysis` throws after any inner failure. -/
def unavailableMsg : String :=
  "AI analysis service is currently unavailable. Please check your OpenAI API configuration and try again."

/-- The loop over `messageOutput.content`: concatenate the text of every
truthy `output_text` part, and let each such part that carries an
annotations array replace the annotation list collected so far. -/
def extractText (contentItems : List ContentItem) :
    String × List CitationAnn :=
  contentItems.foldl
    (fun acc contentItem =>
      if contentItem.type == "output_text" then
        match contentItem.text with
        | some t =>
            if t = "" then acc
            else
              (acc.1 ++ t,
               match contentItem.annotations with
               | some anns => anns
               | none => acc.2)
        | none => acc
      else acc)
    ("", [])

/-- Modelled from the spec: "origin host derived by parsing the URL".  The
URL parser used by the service (`new URL(...).hostname`) is a platform
builtin, not part of the repository sources: take what follows the scheme
separator up to the first path, port, query or fragment delimiter. -/
def hostnameOf (url : String) : String :=
  let afterScheme :=
    match url.splitOn "://" with
    | _ :: rest :: _ => rest
    | _ => url
  afterScheme.takeWhile (fun c => !(c == '/' || c == ':' || c == '?' || c == '#'))

/-- The loop over the collected annotations: keep the URL citations, in
order, as {title (defaulted), url, origin host} triples. -/
def extractSources (anns : List CitationAnn) : List SourceRef :=
  anns.filterMap
    (fun a =>
      if a.type == "url_citation" then
        match a.url_citation with
        | some uc =>
            some { title := jsOrStr uc.title "Source"
                   url := uc.url
                   source := hostnameOf uc.url }
        | none => none
      else none)

/-- Model of `tryOpenAIWebSearchAPI`.  Returns the thrown error or the
parsed response, paired with the number of upstream HTTP requests issued
(0 when the credential check throws before `fetch`, 1 otherwise). -/
def tryOpenAIWebSearchAPI (env : OpenAIEnv) (_request : AIAnalysisRequest) :
    Except String AIAnalysisResponse × Nat :=
  match env.apiKey with
  | none => (.error "OpenAI API key not configured", 0)
  | some _ =>
      match env.http with
      | none => (.error "network error", 1)
      | some response =>
          if response.ok = false then
            (.error ("OpenAI API error: " ++ toString response.status ++ " - " ++
              jsOrStr response.errorMessage "Unknown error"), 1)
          else
            match (response.output.getD []).find? (fun item => item.type == "message") with
            | none => (.error "Invalid response from OpenAI Web Search API", 1)
            | some messageOutput =>
                match messageOutput.content with
                | none => (.error "Invalid response from OpenAI Web Search API", 1)
                | some contentItems =>
                    let extracted := extractText contentItems
                    if jsTrim extracted.1 = "" then
                      (.error "No analysis text found in OpenAI response", 1)
                    else
                      (.ok { analysis := extracted.1
                             isRealAnalysis := true
                             sources := extractSources extracted.2 }, 1)

/-- The cache key of `getAIAnalysis`: symbol, price and percent change to
two decimals, and the 5-minute time bucket. -/
def analysisCacheKey (request : AIAnalysisRequest) (now : Nat) : String :=
  request.symbol ++ "-" ++ toFixed2 request.currentPrice ++ "-" ++
    toFixed2 request.priceChangePercent24h ++ "-" ++ toString (now / 300000)

/-- The body of `getAIAnalysis` past the cache check: call the web-search
API; on a truthy analysis record it in both maps and return it, otherwise
throw the generic unavailability error. -/
def getAIAnalysisUncached (env : OpenAIEnv) (request : AIAnalysisRequest)
    (now : Nat) (st : AnalysisState) (cacheKey : String) :
    Except String AIAnalysisResponse × AnalysisState × Nat :=
  match tryOpenAIWebSearchAPI env request with
  | (.ok webSearchResult, reqCount) =>
      if webSearchResult.analysis ≠ "" then
        (.ok webSearchResult,
         { analysisCache := mapSet st.analysisCache cacheKey
             { data := webSearchResult, timestamp := now }
           latestSuccessfulAnalysis := mapSet st.latestSuccessfulAnalysis
             request.symbol
             { analysis := webSearchResult.analysis
               timestamp := now
               cryptoData := request } },
         reqCount)
      else (.error unavailableMsg, st, reqCount)
  | (.error _, reqCount) => (.error unavailableMsg, st, reqCount)

/-- Model of one invocation of `getAIAnalysis`.  `now` is `Date.now()`.
Returns the result (or thrown error), the new map state, and the number of
upstream requests issued. -/
def getAIAnalysis (env : OpenAIEnv) (request : AIAnalysisRequest) (now : Nat)
    (st : AnalysisState) :
    Except String AIAnalysisResponse × AnalysisState × Nat :=
  let cacheKey := analysisCacheKey request now
  match mapGet st.analysisCache cacheKey with
  | some cached =>
      if now - cached.timestamp < CACHE_DURATION then (.ok cached.data, st, 0)
      else getAIAnalysisUncached env request now st cacheKey
  | none => getAIAnalysisUncached env request now st cacheKey

/-- The cache test of `getAIAnalysis`:
`cached && (now - cached.timestamp) < CACHE_DURATION`. -/
def analysisHit (st : AnalysisState) (cacheKey : String) (now : Nat) : Bool :=
  match mapGet st.analysisCache cacheKey with
  | some cached => now - cached.timestamp < CACHE_DURATION
  | none => false

end AiAnalysis

/-! Concrete sample inputs used by witnesses and counterexamples. -/

/-- A sample coin payload for a successful market-snapshot request. -/
def sampleCoin : UseCryptoPrice.CoinGeckoCoin :=
  { name := "Bitcoin"
    symbol := "btc"
    market_data :=
      { current_price_usd := 50000
        price_change_24h := 100
        price_change_percentage_24h := 2
        market_cap_usd := 1000000000
        total_volume_usd := 500000000
        circulating_supply := 19000000 } }

/-- A sample quote, used as a pre-existing fallback-store entry. -/
def sampleQuote : UseCryptoPrice.CryptoQuote :=
  { price := 64000
    priceChange24h := -50
    priceChangePercent24h := -0.2
    marketCap := 900000000
    volume24h := 400000000
    dominance := 48
    circulatingSupply := 19000000
    name := "Bitcoin"
    symbol := "BTC" }

/-- A fetch state whose fallback store already holds an entry for
`"bitcoin"` and whose freshness cache is empty. -/
def stateWithBitcoinFallback : UseCryptoPrice.FetchState :=
  { cache := [], lastSuccessfulPrices := [("bitcoin", sampleQuote)] }

/-- A sample narrative request. -/
def sampleRequest : AiAnalysis.AIAnalysisRequest :=
  { cryptoName := "Bitcoin"
    symbol := "BTC"
    currentPrice := 50000
    priceChangePercent24h := 1.5
    marketCap := 1000000000
    volume24h := 500000000 }

/-- An environment in which the narrative endpoint answers with one
message output holding one non-empty text part. -/
def sampleOkEnv : AiAnalysis.OpenAIEnv :=
  { apiKey := some "sk-test"
    http := some
      { ok := true
        status := 200
        errorMessage := none
        output := some
          [ { type := "web_search_call", content := none },
            { type := "message"
              content := some
                [ { type := "output_text"
                    text := some "Bitcoin is rising."
                    annotations := none } ] } ] } }

/-- The parsed response `sampleOkEnv` yields. -/
def sampleOkResponse : AiAnalysis.AIAnalysisResponse :=
  { analysis := "Bitcoin is rising."
    isRealAnalysis := true
    sources := [] }

/-- An environment with no configured credential. -/
def noKeyEnv : AiAnalysis.OpenAIEnv :=
  { apiKey := none, http := none }

/-- An ok response whose output list holds no element of type "message". -/
def noMessageResp : AiAnalysis.OpenAIHttpResponse :=
  { ok := true
    status := 200
    errorMessage := none
    output := some [ { type := "web_search_call", content := none } ] }

/-- An environment whose response is ok but whose output list holds no
element of type "message". -/
def noMessageEnv : AiAnalysis.OpenAIEnv :=
  { apiKey := some "sk-test", http := some noMessageResp }

/-- The map state after a first successful narrative call at time 1000
starting from the empty state. -/
def stateAfterFirstCall : AiAnalysis.AnalysisState :=
  { analysisCache :=
      [(AiAnalysis.analysisCacheKey sampleRequest 1000,
        { data := sampleOkResponse, timestamp := 1000 })]
    latestSuccessfulAnalysis :=
      [(sampleRequest.symbol,
        { analysis := sampleOkResponse.analysis
          timestamp := 1000
          cryptoData := sampleRequest })] }

/-- The map state after a first successful narrative call at time 295000
(last 5-minute slice of bucket 0) starting from the empty state. -/
def cexState295 : AiAnalysis.AnalysisState :=
  { analysisCache :=
      [(AiAnalysis.analysisCacheKey sampleRequest 295000,
        { data := sampleOkResponse, timestamp := 295000 })]
    latestSuccessfulAnalysis :=
      [(sampleRequest.symbol,
        { analysis := sampleOkResponse.analysis
          timestamp := 295000
          cryptoData := sampleRequest })] }

/-! Library-style lemmas about the map model. -/

theorem mapGet_mapSet_self {α : Type} (m : List (String × α)) (k : String) (v : α) :
    mapGet (mapSet m k v) k = some v := by
  induction m with
  | nil => simp [mapGet, mapSet]
  | cons hd tl ih =>
      by_cases h : hd.1 = k
      · simp [mapGet, mapSet, h]
      · simp [mapGet, mapSet, h, ih]

theorem mapGet_mapSet_ne {α : Type} (m : List (String × α)) (k k' : String) (v : α)
    (h : k' ≠ k) : mapGet (mapSet m k v) k' = mapGet m k' := by
  have h2 : ¬(k = k') := fun hh => h (Eq.symm hh)
  induction m with
  | nil => simp [mapGet, mapSet, h2]
  | cons hd tl ih =>
      by_cases hk : hd.1 = k
      · subst hk
        simp only [mapSet, beq_self_eq_true, if_true, mapGet]
        rw [if_neg (by simpa using h2), if_neg (by simpa using h2)]
      · simp only [mapSet, beq_iff_eq, hk, if_false, mapGet]
        by_cases hk' : hd.1 = k'
        · simp [hk']
        · simp [hk', ih]

theorem fetchCryptoData_of_not_freshHit (cryptoId : String) (now : Nat)
    (primary : UseCryptoPrice.PrimaryResult)
    (globalRes : UseCryptoPrice.GlobalResult) (st : UseCryptoPrice.FetchState)
    (h : UseCryptoPrice.freshHit st cryptoId now = false) :
    UseCryptoPrice.fetchCryptoData cryptoId now primary globalRes st =
      UseCryptoPrice.fetchNetworkPath cryptoId now primary globalRes st := by
  unfold UseCryptoPrice.fetchCryptoData
  unfold UseCryptoPrice.freshHit at h
  cases hm : mapGet st.cache ("crypto-" ++ cryptoId) with
  | none => rfl
  | some cached =>
      rw [hm] at h
      simp only [decide_eq_false_iff_not] at h
      simp [h]

theorem getAIAnalysis_of_not_hit (env : AiAnalysis.OpenAIEnv)
    (request : AiAnalysis.AIAnalysisRequest) (now : Nat)
    (st : AiAnalysis.AnalysisState)
    (h : AiAnalysis.analysisHit st (AiAnalysis.analysisCacheKey request now) now = false) :
    AiAnalysis.getAIAnalysis env request now st =
      AiAnalysis.getAIAnalysisUncached env request now st
        (AiAnalysis.analysisCacheKey request now) := by
  unfold AiAnalysis.getAIAnalysis
  unfold AiAnalysis.analysisHit at h
  cases hm : mapGet st.analysisCache (AiAnalysis.analysisCacheKey request now) with
  | none => simp [hm]
  | some cached =>
      rw [hm] at h
      simp only [decide_eq_false_iff_not] at h
      simp [hm, h]

/-! Auxiliary facts about decimal printing of naturals, used to reason
about the narrative cache-key strings. -/

theorem toDigitsCore_append (b fuel : Nat) :
    ∀ (n : Nat) (ds : List Char),
      Nat.toDigitsCore b fuel n ds = Nat.toDigitsCore b fuel n [] ++ ds := by
  induction fuel with
  | zero => intro n ds; simp [Nat.toDigitsCore]
  | succ f ih =>
      intro n ds
      simp only [Nat.toDigitsCore]
      by_cases h : n / b = 0
      · simp [h]
      · simp only [h, if_false]
        rw [ih (n / b) (Nat.digitChar (n % b) :: ds),
            ih (n / b) [Nat.digitChar (n % b)]]
        simp

theorem toDigitsCore_eq_digits :
    ∀ (fuel n : Nat), 0 < n → n < fuel →
      Nat.toDigitsCore 10 fuel n [] =
        ((Nat.digits 10 n).map Nat.digitChar).reverse := by
  intro fuel
  induction fuel with
  | zero => intro n _ hf; omega
  | succ f ih =>
      intro n hn hf
      simp only [Nat.toDigitsCore]
      by_cases h : n / 10 = 0
      · have hlt : n < 10 := by
          by_contra hge
          have : 10 / 10 ≤ n / 10 := Nat.div_le_div_right (by omega)
          simp at this
          omega
        have hdig : Nat.digits 10 (n / 10) = [] := by rw [h]; simp
        rw [Nat.digits_def' (by norm_num : (1 : ℕ) < 10) hn]
        simp [h, hdig, Nat.mod_eq_of_lt hlt]
      · simp only [h, if_false]
        rw [toDigitsCore_append]
        have hn10 : 0 < n / 10 := Nat.pos_of_ne_zero h
        have hlt : n / 10 < f := by
          have h1 : n / 10 < n := Nat.div_lt_self hn (by norm_num)
          omega
        rw [ih (n / 10) hn10 hlt,
            Nat.digits_def' (by norm_num : (1 : ℕ) < 10) hn]
        simp

theorem toDigits_eq_digits (n : Nat) (hn : 0 < n) :
    Nat.toDigits 10 n = ((Nat.digits 10 n).map Nat.digitChar).reverse := by
  unfold Nat.toDigits
  exact toDigitsCore_eq_digits (n + 1) n hn (Nat.lt_succ_self n)

theorem digitChar_inj_fin :
    ∀ (a b : Fin 10), Nat.digitChar a.val = Nat.digitChar b.val → a = b := by
  decide

theorem map_digitChar_inj :
    ∀ (l1 l2 : List Nat), (∀ x ∈ l1, x < 10) → (∀ x ∈ l2, x < 10) →
      l1.map Nat.digitChar = l2.map Nat.digitChar → l1 = l2 := by
  intro l1
  induction l1 with
  | nil => intro l2 _ _ h; cases l2 <;> simp_all
  | cons a t ih =>
      intro l2 h1 h2 h
      cases l2 with
      | nil => simp_all
      | cons b t2 =>
          simp only [List.map_cons, List.cons.injEq] at h
          have ha : a < 10 := h1 a (by simp)
          have hb : b < 10 := h2 b (by simp)
          have hab : a = b := by
            have := digitChar_inj_fin ⟨a, ha⟩ ⟨b, hb⟩ h.1
            simpa [Fin.ext_iff] using this
          subst hab
          have ht := ih t2 (fun x hx => h1 x (by simp [hx]))
            (fun x hx => h2 x (by simp [hx])) h.2
          simp [ht]

theorem natRepr_injective : Function.Injective Nat.repr := by
  intro m n h
  have hd : Nat.toDigits 10 m = Nat.toDigits 10 n := by
    have h2 := congrArg String.data h
    simpa [Nat.repr, List.asString] using h2
  have digitsEq : ∀ (a : Nat), 0 < a →
      Nat.toDigits 10 a = ((Nat.digits 10 a).map Nat.digitChar).reverse :=
    fun a ha => toDigits_eq_digits a ha
  rcases Nat.eq_zero_or_pos m with hm | hm
  · rcases Nat.eq_zero_or_pos n with hn | hn
    · omega
    · exfalso
      subst hm
      rw [digitsEq n hn] at hd
      have h0 : Nat.toDigits 10 0 = ['0'] := by decide
      rw [h0] at hd
      have hmap : (Nat.digits 10 n).map Nat.digitChar = ['0'] := by
        have := congrArg List.reverse hd
        simpa using this.symm
      have : Nat.digits 10 n = [0] := by
        apply map_digitChar_inj _ [0]
        · intro x hx
          exact Nat.digits_lt_base (by norm_num) hx
        · intro x hx; simp at hx; omega
        · simpa [Nat.digitChar] using hmap
      have hzero : n = Nat.ofDigits 10 (Nat.digits 10 n) :=
        (Nat.ofDigits_digits 10 n).symm
      rw [this] at hzero
      simp [Nat.ofDigits] at hzero
      omega
  · rcases Nat.eq_zero_or_pos n with hn | hn
    · exfalso
      subst hn
      rw [digitsEq m hm] at hd
      have h0 : Nat.toDigits 10 0 = ['0'] := by decide
      rw [h0] at hd
      have hmap : (Nat.digits 10 m).map Nat.digitChar = ['0'] := by
        have := congrArg List.reverse hd
        simpa using this
      have : Nat.digits 10 m = [0] := by
        apply map_digitChar_inj _ [0]
        · intro x hx
          exact Nat.digits_lt_base (by norm_num) hx
        · intro x hx; simp at hx; omega
        · simpa [Nat.digitChar] using hmap
      have hzero : m = Nat.ofDigits 10 (Nat.digits 10 m) :=
        (Nat.ofDigits_digits 10 m).symm
      rw [this] at hzero
      simp [Nat.ofDigits] at hzero
      omega
    · rw [digitsEq m hm, digitsEq n hn] at hd
      have hrev := congrArg List.reverse hd
      simp only [List.reverse_reverse] at hrev
      have := map_digitChar_inj (Nat.digits 10 m) (Nat.digits 10 n)
        (fun x hx => Nat.digits_lt_base (by norm_num) hx)
        (fun x hx => Nat.digits_lt_base (by norm_num) hx) hrev
      exact Nat.digits.injective 10 this

theorem natToString_injective (m n : Nat) (h : toString m = toString n) :
    m = n :=
  natRepr_injective h

theorem analysisCacheKey_congr (req1 req2 : AiAnalysis.AIAnalysisRequest)
    (now1 now2 : Nat) (hs : req1.symbol = req2.symbol)
    (hp : AiAnalysis.toFixed2 req1.currentPrice = AiAnalysis.toFixed2 req2.currentPrice)
    (hc : AiAnalysis.toFixed2 req1.priceChangePercent24h =
      AiAnalysis.toFixed2 req2.priceChangePercent24h)
    (hb : now1 / 300000 = now2 / 300000) :
    AiAnalysis.analysisCacheKey req1 now1 = AiAnalysis.analysisCacheKey req2 now2 := by
  unfold AiAnalysis.analysisCacheKey
  rw [hs, hp, hc, hb]

theorem analysisCacheKey_ne (req1 req2 : AiAnalysis.AIAnalysisRequest)
    (now1 now2 : Nat) (hs : req1.symbol = req2.symbol)
    (hp : AiAnalysis.toFixed2 req1.currentPrice = AiAnalysis.toFixed2 req2.currentPrice)
    (hc : AiAnalysis.toFixed2 req1.priceChangePercent24h =
      AiAnalysis.toFixed2 req2.priceChangePercent24h)
    (hb : now1 / 300000 ≠ now2 / 300000) :
    AiAnalysis.analysisCacheKey req1 now1 ≠ AiAnalysis.analysisCacheKey req2 now2 := by
  intro h
  unfold AiAnalysis.analysisCacheKey at h
  rw [hs, hp, hc] at h
  apply hb
  apply natToString_injective
  apply String.ext
  have h2 := congrArg String.data h
  simp only [String.data_append, List.append_assoc] at h2
  simpa using h2

section QuoteClaims

open UseCryptoPrice

/-- Claim C1: for every asset key, if the live quote fetch fails and the
fallback store holds no entry for that key, the returned quote is the
static demo default for that key (per the code's defaulting lookup) with
the "demo data" notice and the state is untouched; in particular the
bitcoin default has price 120000, percent change 1.01, name "Bitcoin" and
symbol "BTC". -/
theorem quoteFetch_demo_default (cryptoId : String) (now : Nat)
    (globalRes : GlobalResult) (st : FetchState)
    (hmiss : freshHit st cryptoId now = false)
    (hfb : mapGet st.lastSuccessfulPrices cryptoId = none) :
    fetchCryptoData cryptoId now .failure globalRes st =
      ({ quote := basicFallback cryptoId
         error := some "Using demo data - API unavailable and no cached data" }, st)
    ∧ (basicFallback "bitcoin").price = 120000
    ∧ (basicFallback "bitcoin").priceChangePercent24h = 1.01
    ∧ (basicFallback "bitcoin").name = "Bitcoin"
    ∧ (basicFallback "bitcoin").symbol = "BTC" := by
  refine ⟨?_, rfl, rfl, rfl, rfl⟩
  rw [fetchCryptoData_of_not_freshHit cryptoId now .failure globalRes st hmiss]
  simp [fetchNetworkPath, fetchFallbackPath, hfb]

theorem quoteFetch_demo_default_witness :
    UseCryptoPrice.freshHit UseCryptoPrice.emptyFetchState "bitcoin" 7 = false
    ∧ mapGet UseCryptoPrice.emptyFetchState.lastSuccessfulPrices "bitcoin" = none
    ∧ (UseCryptoPrice.fetchCryptoData "bitcoin" 7 .failure .netError
          UseCryptoPrice.emptyFetchState =
        ({ quote := UseCryptoPrice.basicFallback "bitcoin"
           error := some "Using demo data - API unavailable and no cached data" },
         UseCryptoPrice.emptyFetchState)
       ∧ (UseCryptoPrice.basicFallback "bitcoin").price = 120000
       ∧ (UseCryptoPrice.basicFallback "bitcoin").priceChangePercent24h = 1.01
       ∧ (UseCryptoPrice.basicFallback "bitcoin").name = "Bitcoin"
       ∧ (UseCryptoPrice.basicFallback "bitcoin").symbol = "BTC") :=
  ⟨by decide, by decide,
   quoteFetch_demo_default "bitcoin" 7 .netError UseCryptoPrice.emptyFetchState
     (by decide) (by decide)⟩

/-- Claim C2: for every asset key, if the live quote fetch fails and the
fallback store holds an entry for that key, the fetch returns exactly that
entry's payload with the soft staleness notice (which differs from the
demo-data notice), and the state — both maps — is returned unchanged. -/
theorem quoteFetch_uses_fallback_entry (cryptoId : String) (now : Nat)
    (globalRes : GlobalResult) (st : FetchState) (q : CryptoQuote)
    (hmiss : freshHit st cryptoId now = false)
    (hfb : mapGet st.lastSuccessfulPrices cryptoId = some q) :
    fetchCryptoData cryptoId now .failure globalRes st =
      ({ quote := q, error := some "Using cached data - API temporarily unavailable" }, st)
    ∧ ("Using cached data - API temporarily unavailable" : String) ≠
      "Using demo data - API unavailable and no cached data" := by
  refine ⟨?_, by decide⟩
  rw [fetchCryptoData_of_not_freshHit cryptoId now .failure globalRes st hmiss]
  simp [fetchNetworkPath, fetchFallbackPath, hfb]

theorem quoteFetch_uses_fallback_entry_witness :
    UseCryptoPrice.freshHit stateWithBitcoinFallback "bitcoin" 7 = false
    ∧ mapGet stateWithBitcoinFallback.lastSuccessfulPrices "bitcoin" = some sampleQuote
    ∧ (UseCryptoPrice.fetchCryptoData "bitcoin" 7 .failure .netError
          stateWithBitcoinFallback =
        ({ quote := sampleQuote
           error := some "Using cached data - API temporarily unavailable" },
         stateWithBitcoinFallback)
       ∧ ("Using cached data - API temporarily unavailable" : String) ≠
         "Using demo data - API unavailable and no cached data") :=
  ⟨by decide, rfl,
   quoteFetch_uses_fallback_entry "bitcoin" 7 .netError stateWithBitcoinFallback
     sampleQuote (by decide) rfl⟩

/-- Claim C3: for every asset key, a quote fetch that succeeds (primary
request succeeds and the secondary request does not throw) writes the
merged quote to both the freshness cache — under key `"crypto-" ++ key`
and with the call's timestamp — and the fallback store, with identical
payload, and returns that payload with no error. -/
theorem quoteFetch_success_populates_both (cryptoId : String) (now : Nat)
    (coin : CoinGeckoCoin) (globalRes : GlobalResult) (st : FetchState)
    (hmiss : freshHit st cryptoId now = false)
    (hg : globalRes ≠ .netError) :
    ∃ q : CryptoQuote,
      (fetchCryptoData cryptoId now (.success coin) globalRes st).1 =
        { quote := q, error := none }
      ∧ mapGet (fetchCryptoData cryptoId now (.success coin) globalRes st).2.cache
          ("crypto-" ++ cryptoId) = some { data := q, timestamp := now }
      ∧ mapGet (fetchCryptoData cryptoId now (.success coin) globalRes st).2.lastSuccessfulPrices
          cryptoId = some q := by
  rw [fetchCryptoData_of_not_freshHit cryptoId now (.success coin) globalRes st hmiss]
  cases globalRes with
  | netError => exact absurd rfl hg
  | notOk =>
      exact ⟨mergeQuote coin 0, rfl,
        by simp [fetchNetworkPath, commitSuccess, mapGet_mapSet_self],
        by simp [fetchNetworkPath, commitSuccess, mapGet_mapSet_self]⟩
  | ok globalData =>
      refine ⟨_, rfl, ?_, ?_⟩ <;>
        simp [fetchNetworkPath, commitSuccess, mapGet_mapSet_self]

theorem quoteFetch_success_populates_both_witness :
    UseCryptoPrice.freshHit UseCryptoPrice.emptyFetchState "bitcoin" 7 = false
    ∧ (UseCryptoPrice.GlobalResult.notOk ≠ UseCryptoPrice.GlobalResult.netError)
    ∧ ∃ q : UseCryptoPrice.CryptoQuote,
        (UseCryptoPrice.fetchCryptoData "bitcoin" 7 (.success sampleCoin) .notOk
            UseCryptoPrice.emptyFetchState).1 = { quote := q, error := none }
        ∧ mapGet (UseCryptoPrice.fetchCryptoData "bitcoin" 7 (.success sampleCoin) .notOk
            UseCryptoPrice.emptyFetchState).2.cache ("crypto-" ++ "bitcoin") =
            some { data := q, timestamp := 7 }
        ∧ mapGet (UseCryptoPrice.fetchCryptoData "bitcoin" 7 (.success sampleCoin) .notOk
            UseCryptoPrice.emptyFetchState).2.lastSuccessfulPrices "bitcoin" = some q :=
  ⟨by decide, by decide,
   quoteFetch_success_populates_both "bitcoin" 7 sampleCoin .notOk
     UseCryptoPrice.emptyFetchState (by decide) (by decide)⟩

/-- Claim C10: for every asset key outside {bitcoin, ethereum, solana},
if the live quote fetch fails and the fallback store holds no entry for
that key, the fetch returns bitcoin's static demo default (price 120000,
symbol "BTC") with the demo-data notice, rather than failing. -/
theorem quoteFetch_unknown_key_bitcoin_default (cryptoId : String) (now : Nat)
    (globalRes : GlobalResult) (st : FetchState)
    (h1 : cryptoId ≠ "bitcoin") (h2 : cryptoId ≠ "ethereum")
    (h3 : cryptoId ≠ "solana")
    (hmiss : freshHit st cryptoId now = false)
    (hfb : mapGet st.lastSuccessfulPrices cryptoId = none) :
    fetchCryptoData cryptoId now .failure globalRes st =
      ({ quote := bitcoinFallback
         error := some "Using demo data - API unavailable and no cached data" }, st)
    ∧ bitcoinFallback.price = 120000
    ∧ bitcoinFallback.symbol = "BTC" := by
  refine ⟨?_, rfl, rfl⟩
  rw [fetchCryptoData_of_not_freshHit cryptoId now .failure globalRes st hmiss]
  simp [fetchNetworkPath, fetchFallbackPath, hfb, basicFallback, h1, h2, h3]

theorem quoteFetch_unknown_key_bitcoin_default_witness :
    ("dogecoin" : String) ≠ "bitcoin" ∧ ("dogecoin" : String) ≠ "ethereum"
    ∧ ("dogecoin" : String) ≠ "solana"
    ∧ UseCryptoPrice.freshHit UseCryptoPrice.emptyFetchState "dogecoin" 7 = false
    ∧ mapGet UseCryptoPrice.emptyFetchState.lastSuccessfulPrices "dogecoin" = none
    ∧ (UseCryptoPrice.fetchCryptoData "dogecoin" 7 .failure .netError
          UseCryptoPrice.emptyFetchState =
        ({ quote := UseCryptoPrice.bitcoinFallback
           error := some "Using demo data - API unavailable and no cached data" },
         UseCryptoPrice.emptyFetchState)
       ∧ UseCryptoPrice.bitcoinFallback.price = 120000
       ∧ UseCryptoPrice.bitcoinFallback.symbol = "BTC") :=
  ⟨by decide, by decide, by decide, by decide, by decide,
   quoteFetch_unknown_key_bitcoin_default "dogecoin" 7 .netError
     UseCryptoPrice.emptyFetchState (by decide) (by decide) (by decide)
     (by decide) (by decide)⟩

/-- Counterexample to claim C5: for asset key "bitcoin" under a global
payload whose dominance mapping holds no "btc" entry, a successful quote
fetch sets dominance to 50 (the code's `|| 50` default), not 0 as the
claim states. -/
theorem dominance_missing_btc_cex :
    (UseCryptoPrice.fetchCryptoData "bitcoin" 0
        (.success sampleCoin)
        (.ok { market_cap_percentage := [] })
        UseCryptoPrice.emptyFetchState).1.quote.dominance = 50
    ∧ ((50 : ℚ) ≠ 0) :=
  ⟨rfl, by norm_num⟩

/-- Claim C5 (amended): for every asset key other than bitcoin and
ethereum, a successful quote fetch sets dominance to 0 regardless of the
global mapping; for bitcoin (resp. ethereum) a short-code entry that is
missing or zero (JS falsy under the code's defaulting) yields the
hardcoded default 50 (resp. 20) and a present non-zero entry yields that
entry's value.  Hence only bitcoin and ethereum ever receive a non-zero
dominance from the global payload. -/
theorem dominance_policy :
    (∀ (cryptoId : String) (now : Nat) (coin : CoinGeckoCoin)
       (globalRes : GlobalResult) (st : FetchState),
       freshHit st cryptoId now = false → globalRes ≠ .netError →
       cryptoId ≠ "bitcoin" → cryptoId ≠ "ethereum" →
       (fetchCryptoData cryptoId now (.success coin) globalRes st).1.quote.dominance = 0)
    ∧ (∀ (now : Nat) (coin : CoinGeckoCoin) (g : GlobalData) (st : FetchState),
       freshHit st "bitcoin" now = false →
       mapGet g.market_cap_percentage "btc" = none →
       (fetchCryptoData "bitcoin" now (.success coin) (.ok g) st).1.quote.dominance = 50)
    ∧ (∀ (now : Nat) (coin : CoinGeckoCoin) (g : GlobalData) (st : FetchState) (v : ℚ),
       freshHit st "bitcoin" now = false →
       mapGet g.market_cap_percentage "btc" = some v → v ≠ 0 →
       (fetchCryptoData "bitcoin" now (.success coin) (.ok g) st).1.quote.dominance = v)
    ∧ (∀ (now : Nat) (coin : CoinGeckoCoin) (g : GlobalData) (st : FetchState),
       freshHit st "ethereum" now = false →
       mapGet g.market_cap_percentage "eth" = none →
       (fetchCryptoData "ethereum" now (.success coin) (.ok g) st).1.quote.dominance = 20)
    ∧ (∀ (now : Nat) (coin : CoinGeckoCoin) (g : GlobalData) (st : FetchState) (v : ℚ),
       freshHit st "ethereum" now = false →
       mapGet g.market_cap_percentage "eth" = some v → v ≠ 0 →
       (fetchCryptoData "ethereum" now (.success coin) (.ok g) st).1.quote.dominance = v)
    ∧ (∀ (now : Nat) (coin : CoinGeckoCoin) (g : GlobalData) (st : FetchState),
       freshHit st "bitcoin" now = false →
       mapGet g.market_cap_percentage "btc" = some 0 →
       (fetchCryptoData "bitcoin" now (.success coin) (.ok g) st).1.quote.dominance = 50)
    ∧ (∀ (now : Nat) (coin : CoinGeckoCoin) (g : GlobalData) (st : FetchState),
       freshHit st "ethereum" now = false →
       mapGet g.market_cap_percentage "eth" = some 0 →
       (fetchCryptoData "ethereum" now (.success coin) (.ok g) st).1.quote.dominance = 20) := by
  refine ⟨?_, ?_, ?_, ?_, ?_, ?_, ?_⟩
  · intro cryptoId now coin globalRes st hmiss hg h1 h2
    rw [fetchCryptoData_of_not_freshHit cryptoId now (.success coin) globalRes st hmiss]
    cases globalRes with
    | netError => exact absurd rfl hg
    | notOk => simp [fetchNetworkPath, commitSuccess, mergeQuote]
    | ok g => simp [fetchNetworkPath, commitSuccess, mergeQuote, h1, h2]
  · intro now coin g st hmiss hbtc
    rw [fetchCryptoData_of_not_freshHit _ now (.success coin) (.ok g) st hmiss]
    simp [fetchNetworkPath, commitSuccess, mergeQuote, hbtc, jsOrNum]
  · intro now coin g st v hmiss hbtc hv
    rw [fetchCryptoData_of_not_freshHit _ now (.success coin) (.ok g) st hmiss]
    simp [fetchNetworkPath, commitSuccess, mergeQuote, hbtc, jsOrNum, hv]
  · intro now coin g st hmiss heth
    rw [fetchCryptoData_of_not_freshHit _ now (.success coin) (.ok g) st hmiss]
    simp [fetchNetworkPath, commitSuccess, mergeQuote, heth, jsOrNum]
  · intro now coin g st v hmiss heth hv
    rw [fetchCryptoData_of_not_freshHit _ now (.success coin) (.ok g) st hmiss]
    simp [fetchNetworkPath, commitSuccess, mergeQuote, heth, jsOrNum, hv]
  · intro now coin g st hmiss hbtc
    rw [fetchCryptoData_of_not_freshHit _ now (.success coin) (.ok g) st hmiss]
    simp [fetchNetworkPath, commitSuccess, mergeQuote, hbtc, jsOrNum]
  · intro now coin g st hmiss heth
    rw [fetchCryptoData_of_not_freshHit _ now (.success coin) (.ok g) st hmiss]
    simp [fetchNetworkPath, commitSuccess, mergeQuote, heth, jsOrNum]

theorem dominance_policy_witness :
    UseCryptoPrice.freshHit UseCryptoPrice.emptyFetchState "solana" 7 = false
    ∧ (UseCryptoPrice.GlobalResult.notOk ≠ UseCryptoPrice.GlobalResult.netError)
    ∧ ("solana" : String) ≠ "bitcoin" ∧ ("solana" : String) ≠ "ethereum"
    ∧ (UseCryptoPrice.fetchCryptoData "solana" 7 (.success sampleCoin) .notOk
        UseCryptoPrice.emptyFetchState).1.quote.dominance = 0 :=
  ⟨by decide, by decide, by decide, by decide,
   dominance_policy.1 "solana" 7 sampleCoin .notOk UseCryptoPrice.emptyFetchState
     (by decide) (by decide) (by decide) (by decide)⟩

/-- Counterexample to claim C6: when the primary request succeeds but the
secondary global-totals request fails with a network error (a rejected
fetch), the quote fetch is NOT treated as successful: it surfaces the
demo-data error notice and writes nothing to either cache. -/
theorem globalNetError_not_successful_cex :
    (UseCryptoPrice.fetchCryptoData "bitcoin" 0 (.success sampleCoin) .netError
        UseCryptoPrice.emptyFetchState).1.error =
      some "Using demo data - API unavailable and no cached data"
    ∧ (UseCryptoPrice.fetchCryptoData "bitcoin" 0 (.success sampleCoin) .netError
        UseCryptoPrice.emptyFetchState).2 = UseCryptoPrice.emptyFetchState :=
  ⟨rfl, rfl⟩

/-- Claim C6 (amended): if the primary request succeeds and the secondary
global-totals request completes with a non-success status, the fetch is
still successful — dominance defaults to 0, the merged quote is written to
both caches, and it is returned with no error.  If instead the secondary
request fails with a network error, the whole invocation behaves exactly
like a primary failure (fallback path, no cache writes). -/
theorem globalFailure_policy (cryptoId : String) (now : Nat)
    (coin : CoinGeckoCoin) (st : FetchState)
    (hmiss : freshHit st cryptoId now = false) :
    (fetchCryptoData cryptoId now (.success coin) .notOk st =
      ({ quote := mergeQuote coin 0, error := none },
       { cache := mapSet st.cache ("crypto-" ++ cryptoId)
           { data := mergeQuote coin 0, timestamp := now }
         lastSuccessfulPrices :=
           mapSet st.lastSuccessfulPrices cryptoId (mergeQuote coin 0) })
      ∧ (mergeQuote coin 0).dominance = 0)
    ∧ fetchCryptoData cryptoId now (.success coin) .netError st =
        fetchCryptoData cryptoId now .failure .netError st := by
  refine ⟨⟨?_, rfl⟩, ?_⟩
  · rw [fetchCryptoData_of_not_freshHit cryptoId now (.success coin) .notOk st hmiss]
    simp [fetchNetworkPath, commitSuccess]
  · rw [fetchCryptoData_of_not_freshHit cryptoId now (.success coin) .netError st hmiss,
        fetchCryptoData_of_not_freshHit cryptoId now .failure .netError st hmiss]
    rfl

theorem globalFailure_policy_witness :
    UseCryptoPrice.freshHit UseCryptoPrice.emptyFetchState "bitcoin" 7 = false
    ∧ ((UseCryptoPrice.fetchCryptoData "bitcoin" 7 (.success sampleCoin) .notOk
          UseCryptoPrice.emptyFetchState =
        ({ quote := UseCryptoPrice.mergeQuote sampleCoin 0, error := none },
         { cache := mapSet UseCryptoPrice.emptyFetchState.cache ("crypto-" ++ "bitcoin")
             { data := UseCryptoPrice.mergeQuote sampleCoin 0, timestamp := 7 }
           lastSuccessfulPrices := mapSet
             UseCryptoPrice.emptyFetchState.lastSuccessfulPrices "bitcoin"
             (UseCryptoPrice.mergeQuote sampleCoin 0) })
        ∧ (UseCryptoPrice.mergeQuote sampleCoin 0).dominance = 0)
       ∧ UseCryptoPrice.fetchCryptoData "bitcoin" 7 (.success sampleCoin) .netError
           UseCryptoPrice.emptyFetchState =
         UseCryptoPrice.fetchCryptoData "bitcoin" 7 .failure .netError
           UseCryptoPrice.emptyFetchState) :=
  ⟨by decide,
   globalFailure_policy "bitcoin" 7 sampleCoin UseCryptoPrice.emptyFetchState
     (by decide)⟩

end QuoteClaims

section NarrativeClaims

open AiAnalysis

theorem tryOpenAI_snd (env : OpenAIEnv) (req : AIAnalysisRequest) :
    (tryOpenAIWebSearchAPI env req).2 =
      (match env.apiKey with | none => 0 | some _ => 1) := by
  obtain ⟨apiKey, http⟩ := env
  cases apiKey with
  | none => rfl
  | some k =>
      cases http with
      | none => rfl
      | some resp =>
          dsimp only [tryOpenAIWebSearchAPI]
          by_cases hok : resp.ok = false
          · rw [if_pos hok]
          · rw [if_neg hok]
            cases (resp.output.getD []).find? (fun item => item.type == "message") with
            | none => rfl
            | some mo =>
                dsimp only
                cases mo.content with
                | none => rfl
                | some ci =>
                    dsimp only
                    by_cases ht : jsTrim (extractText ci).1 = ""
                    · rw [if_pos ht]
                    · rw [if_neg ht]

theorem tryOpenAI_snd_of_key (env : OpenAIEnv) (req : AIAnalysisRequest)
    (k : String) (hk : env.apiKey = some k) :
    (tryOpenAIWebSearchAPI env req).2 = 1 := by
  rw [tryOpenAI_snd, hk]

theorem tryOpenAI_ok_apiKey (env : OpenAIEnv) (req : AIAnalysisRequest)
    (w : AIAnalysisResponse) (h : (tryOpenAIWebSearchAPI env req).1 = .ok w) :
    env.apiKey ≠ none := by
  intro hk
  unfold tryOpenAIWebSearchAPI at h
  rw [hk] at h
  simp at h

theorem tryOpenAI_ok_count (env : OpenAIEnv) (req : AIAnalysisRequest)
    (w : AIAnalysisResponse) (cnt : Nat)
    (h : tryOpenAIWebSearchAPI env req = (.ok w, cnt)) : cnt = 1 := by
  have h1 : (tryOpenAIWebSearchAPI env req).1 = .ok w := by rw [h]
  have h2 : (tryOpenAIWebSearchAPI env req).2 = cnt := by rw [h]
  have hk := tryOpenAI_ok_apiKey env req w h1
  rw [tryOpenAI_snd] at h2
  cases hke : env.apiKey with
  | none => exact absurd hke hk
  | some k => rw [hke] at h2; exact h2.symm

theorem getAIAnalysisUncached_snd (env : OpenAIEnv) (req : AIAnalysisRequest)
    (now : Nat) (st : AnalysisState) (key : String) :
    (getAIAnalysisUncached env req now st key).2.2 =
      (tryOpenAIWebSearchAPI env req).2 := by
  unfold getAIAnalysisUncached
  rcases htry : tryOpenAIWebSearchAPI env req with ⟨res, cnt⟩
  cases res with
  | ok w => by_cases hw : w.analysis = "" <;> simp [hw]
  | error e => simp

theorem getAIAnalysisUncached_ok (env : OpenAIEnv) (req : AIAnalysisRequest)
    (now : Nat) (st st' : AnalysisState) (key : String)
    (r : AIAnalysisResponse) (n : Nat)
    (h : getAIAnalysisUncached env req now st key = (.ok r, st', n)) :
    n = 1 ∧ r.analysis ≠ ""
    ∧ st' = { analysisCache := mapSet st.analysisCache key
                { data := r, timestamp := now }
              latestSuccessfulAnalysis := mapSet st.latestSuccessfulAnalysis
                req.symbol
                { analysis := r.analysis, timestamp := now, cryptoData := req } } := by
  unfold getAIAnalysisUncached at h
  rcases htry : tryOpenAIWebSearchAPI env req with ⟨res, cnt⟩
  rw [htry] at h
  cases res with
  | error e => simp at h
  | ok w =>
      dsimp only at h
      by_cases hw : w.analysis = ""
      · simp [hw] at h
      · rw [if_pos hw] at h
        have h1 := congrArg (fun p => p.1) h
        have h2 := congrArg (fun p => p.2.1) h
        have h3 := congrArg (fun p => p.2.2) h
        simp only at h1 h2 h3
        have hwr : w = r := by simpa using h1
        have hcnt := tryOpenAI_ok_count env req w cnt htry
        subst hwr
        exact ⟨by omega, hw, h2.symm⟩

theorem getAIAnalysis_ok_network (env : OpenAIEnv) (req : AIAnalysisRequest)
    (now : Nat) (st st' : AnalysisState) (r : AIAnalysisResponse)
    (h : getAIAnalysis env req now st = (.ok r, st', 1)) :
    r.analysis ≠ ""
    ∧ st' = { analysisCache := mapSet st.analysisCache (analysisCacheKey req now)
                { data := r, timestamp := now }
              latestSuccessfulAnalysis := mapSet st.latestSuccessfulAnalysis
                req.symbol
                { analysis := r.analysis, timestamp := now, cryptoData := req } } := by
  unfold getAIAnalysis at h
  dsimp only at h
  cases hm : mapGet st.analysisCache (analysisCacheKey req now) with
  | none =>
      rw [hm] at h
      have := getAIAnalysisUncached_ok env req now st st'
        (analysisCacheKey req now) r 1 h
      exact ⟨this.2.1, this.2.2⟩
  | some c =>
      rw [hm] at h
      dsimp only at h
      by_cases hf : now - c.timestamp < CACHE_DURATION
      · rw [if_pos hf] at h
        have h2 : (0 : Nat) = 1 := congrArg (fun p => p.2.2) h
        omega
      · rw [if_neg hf] at h
        have := getAIAnalysisUncached_ok env req now st st'
          (analysisCacheKey req now) r 1 h
        exact ⟨this.2.1, this.2.2⟩

theorem getAIAnalysis_hit (env : OpenAIEnv) (req : AIAnalysisRequest)
    (now : Nat) (st : AnalysisState) (c : AnalysisCacheEntry)
    (hget : mapGet st.analysisCache (analysisCacheKey req now) = some c)
    (hfresh : now - c.timestamp < CACHE_DURATION) :
    getAIAnalysis env req now st = (.ok c.data, st, 0) := by
  unfold getAIAnalysis
  dsimp only
  rw [hget]
  dsimp only
  rw [if_pos hfresh]

/-- Claim C7: for every narrative-endpoint response whose output list
contains no element of type "message", the narrative fetch fails with the
shape error, and the analysis cache is not written (the whole state is
returned unchanged). -/
theorem narrative_no_message_is_shape_error (env : OpenAIEnv)
    (request : AIAnalysisRequest) (now : Nat) (st : AnalysisState)
    (k : String) (resp : OpenAIHttpResponse)
    (hkey : env.apiKey = some k) (hhttp : env.http = some resp)
    (hok : resp.ok = true)
    (hnomsg : ∀ item ∈ resp.output.getD [], item.type ≠ "message")
    (hmiss : analysisHit st (analysisCacheKey request now) now = false) :
    (tryOpenAIWebSearchAPI env request).1 =
      .error "Invalid response from OpenAI Web Search API"
    ∧ getAIAnalysis env request now st = (.error unavailableMsg, st, 1) := by
  have hfind : (resp.output.getD []).find? (fun item => item.type == "message") = none := by
    apply List.find?_eq_none.mpr
    intro item hmem
    simpa using hnomsg item hmem
  have htry : tryOpenAIWebSearchAPI env request =
      (.error "Invalid response from OpenAI Web Search API", 1) := by
    unfold tryOpenAIWebSearchAPI
    rw [hkey]
    dsimp only
    rw [hhttp]
    dsimp only
    rw [if_neg (by simp [hok])]
    rw [hfind]
  refine ⟨by rw [htry], ?_⟩
  rw [getAIAnalysis_of_not_hit env request now st hmiss]
  unfold getAIAnalysisUncached
  rw [htry]

theorem narrative_no_message_is_shape_error_witness :
    noMessageEnv.apiKey = some "sk-test"
    ∧ noMessageEnv.http = some noMessageResp
    ∧ noMessageResp.ok = true
    ∧ (∀ item ∈ noMessageResp.output.getD [], item.type ≠ "message")
    ∧ AiAnalysis.analysisHit emptyAnalysisState
        (AiAnalysis.analysisCacheKey sampleRequest 0) 0 = false
    ∧ ((AiAnalysis.tryOpenAIWebSearchAPI noMessageEnv sampleRequest).1 =
        .error "Invalid response from OpenAI Web Search API"
       ∧ AiAnalysis.getAIAnalysis noMessageEnv sampleRequest 0 emptyAnalysisState =
        (.error AiAnalysis.unavailableMsg, emptyAnalysisState, 1)) :=
  ⟨rfl, rfl, rfl, by decide, by decide,
   narrative_no_message_is_shape_error noMessageEnv sampleRequest 0
     emptyAnalysisState "sk-test" noMessageResp rfl rfl rfl (by decide) (by decide)⟩

/-- Counterexample to claim C8: with a missing credential, the inner
web-search call fails with "OpenAI API key not configured", but the
narrative fetch surfaces the fixed generic unavailability message, not
that underlying error verbatim. -/
theorem narrative_error_not_verbatim_cex :
    (AiAnalysis.tryOpenAIWebSearchAPI noKeyEnv sampleRequest).1 =
      .error "OpenAI API key not configured"
    ∧ (AiAnalysis.getAIAnalysis noKeyEnv sampleRequest 0 emptyAnalysisState).1 =
      .error AiAnalysis.unavailableMsg
    ∧ AiAnalysis.unavailableMsg ≠ "OpenAI API key not configured" :=
  ⟨rfl, rfl, by decide⟩

/-- Claim C8 (amended): every narrative-fetch failure of any kind (missing
credential, non-success status, malformed response shape, empty text)
causes the call to fail with the fixed generic unavailability message —
not the underlying error verbatim — and no fallback narrative content is
returned and no cache entry is written (the state is unchanged). -/
theorem narrative_failure_generic_error (env : OpenAIEnv)
    (request : AIAnalysisRequest) (now : Nat) (st : AnalysisState) (e : String)
    (hmiss : analysisHit st (analysisCacheKey request now) now = false)
    (herr : (tryOpenAIWebSearchAPI env request).1 = .error e) :
    (getAIAnalysis env request now st).1 = .error unavailableMsg
    ∧ (getAIAnalysis env request now st).2.1 = st := by
  rw [getAIAnalysis_of_not_hit env request now st hmiss]
  unfold getAIAnalysisUncached
  rcases htry : tryOpenAIWebSearchAPI env request with ⟨res, cnt⟩
  rw [htry] at herr
  cases res with
  | error msg => exact ⟨rfl, rfl⟩
  | ok w => simp at herr

theorem narrative_failure_generic_error_witness :
    AiAnalysis.analysisHit emptyAnalysisState
      (AiAnalysis.analysisCacheKey sampleRequest 0) 0 = false
    ∧ (AiAnalysis.tryOpenAIWebSearchAPI noKeyEnv sampleRequest).1 =
        .error "OpenAI API key not configured"
    ∧ ((AiAnalysis.getAIAnalysis noKeyEnv sampleRequest 0 emptyAnalysisState).1 =
        .error AiAnalysis.unavailableMsg
       ∧ (AiAnalysis.getAIAnalysis noKeyEnv sampleRequest 0 emptyAnalysisState).2.1 =
        emptyAnalysisState) :=
  ⟨by decide, rfl,
   narrative_failure_generic_error noKeyEnv sampleRequest 0 emptyAnalysisState
     "OpenAI API key not configured" (by decide) rfl⟩

/-- Claim C4: for every pair of narrative requests with identical symbol,
identical price to two decimals and identical percent change to two
decimals: a second request in the same 5-minute bucket as a first request
that succeeded over the network returns the cached narrative with no
upstream call; a second request outside that bucket (here from an
initially empty cache, with a credential configured) issues a fresh
upstream call. -/
theorem narrative_bucket_caching :
    (∀ (env1 env2 : OpenAIEnv) (req1 req2 : AIAnalysisRequest)
       (now1 now2 : Nat) (st0 st1 : AnalysisState) (r : AIAnalysisResponse),
       req1.symbol = req2.symbol →
       toFixed2 req1.currentPrice = toFixed2 req2.currentPrice →
       toFixed2 req1.priceChangePercent24h = toFixed2 req2.priceChangePercent24h →
       now1 ≤ now2 → now1 / 300000 = now2 / 300000 →
       getAIAnalysis env1 req1 now1 st0 = (.ok r, st1, 1) →
       getAIAnalysis env2 req2 now2 st1 = (.ok r, st1, 0))
    ∧ (∀ (env1 env2 : OpenAIEnv) (req1 req2 : AIAnalysisRequest)
       (now1 now2 : Nat) (st1 : AnalysisState) (r : AIAnalysisResponse) (k : String),
       req1.symbol = req2.symbol →
       toFixed2 req1.currentPrice = toFixed2 req2.currentPrice →
       toFixed2 req1.priceChangePercent24h = toFixed2 req2.priceChangePercent24h →
       now1 / 300000 ≠ now2 / 300000 →
       env2.apiKey = some k →
       getAIAnalysis env1 req1 now1 emptyAnalysisState = (.ok r, st1, 1) →
       (getAIAnalysis env2 req2 now2 st1).2.2 = 1) := by
  constructor
  · intro env1 env2 req1 req2 now1 now2 st0 st1 r hs hp hc hle hb h1
    obtain ⟨hr, hst⟩ := getAIAnalysis_ok_network env1 req1 now1 st0 st1 r h1
    have hkey := analysisCacheKey_congr req1 req2 now1 now2 hs hp hc hb
    have hget : mapGet st1.analysisCache (analysisCacheKey req2 now2) =
        some { data := r, timestamp := now1 } := by
      rw [hst, ← hkey]
      exact mapGet_mapSet_self st0.analysisCache (analysisCacheKey req1 now1) _
    have hfresh : now2 - now1 < CACHE_DURATION := by
      unfold CACHE_DURATION
      omega
    exact getAIAnalysis_hit env2 req2 now2 st1 { data := r, timestamp := now1 }
      hget hfresh
  · intro env1 env2 req1 req2 now1 now2 st1 r k hs hp hc hb hk h1
    obtain ⟨hr, hst⟩ := getAIAnalysis_ok_network env1 req1 now1
      emptyAnalysisState st1 r h1
    have hkeyne := analysisCacheKey_ne req1 req2 now1 now2 hs hp hc hb
    have hget : mapGet st1.analysisCache (analysisCacheKey req2 now2) = none := by
      rw [hst]
      dsimp only [emptyAnalysisState]
      rw [mapGet_mapSet_ne _ _ _ _ (fun hh => hkeyne hh.symm)]
      rfl
    have hmiss : analysisHit st1 (analysisCacheKey req2 now2) now2 = false := by
      unfold analysisHit
      rw [hget]
    rw [getAIAnalysis_of_not_hit env2 req2 now2 st1 hmiss,
        getAIAnalysisUncached_snd]
    exact tryOpenAI_snd_of_key env2 req2 k hk

theorem narrative_bucket_caching_witness :
    (1000 : Nat) ≤ 2000 ∧ (1000 : Nat) / 300000 = 2000 / 300000
    ∧ AiAnalysis.getAIAnalysis sampleOkEnv sampleRequest 1000 emptyAnalysisState =
        (.ok sampleOkResponse, stateAfterFirstCall, 1)
    ∧ AiAnalysis.getAIAnalysis sampleOkEnv sampleRequest 2000 stateAfterFirstCall =
        (.ok sampleOkResponse, stateAfterFirstCall, 0) :=
  ⟨by decide, by decide, rfl,
   narrative_bucket_caching.1 sampleOkEnv sampleOkEnv sampleRequest sampleRequest
     1000 2000 emptyAnalysisState stateAfterFirstCall sampleOkResponse
     rfl rfl rfl (by decide) (by decide) rfl⟩

/-- Counterexample to claim C9: two narrative calls with identical inputs
10 seconds apart (at 295000 ms and 305000 ms, straddling a 5-minute bucket
boundary), the first of which succeeds, issue two upstream requests in
total, not one. -/
theorem narrative_two_calls_10s_cex :
    (305000 - 295000 = 10000)
    ∧ (AiAnalysis.getAIAnalysis sampleOkEnv sampleRequest 295000
        emptyAnalysisState).1 = .ok sampleOkResponse
    ∧ (AiAnalysis.getAIAnalysis sampleOkEnv sampleRequest 295000
          emptyAnalysisState).2.2
      + (AiAnalysis.getAIAnalysis sampleOkEnv sampleRequest 305000
          (AiAnalysis.getAIAnalysis sampleOkEnv sampleRequest 295000
            emptyAnalysisState).2.1).2.2 = 2 := by
  have h1 : AiAnalysis.getAIAnalysis sampleOkEnv sampleRequest 295000
      emptyAnalysisState = (.ok sampleOkResponse, cexState295, 1) := rfl
  have hne := analysisCacheKey_ne sampleRequest sampleRequest 295000 305000
    rfl rfl rfl (by decide)
  have hget : mapGet cexState295.analysisCache
      (analysisCacheKey sampleRequest 305000) = none := by
    dsimp only [cexState295]
    simp only [mapGet, beq_iff_eq]
    rw [if_neg hne]
  have hmiss : analysisHit cexState295
      (analysisCacheKey sampleRequest 305000) 305000 = false := by
    unfold analysisHit
    rw [hget]
  have h2 : (AiAnalysis.getAIAnalysis sampleOkEnv sampleRequest 305000
      cexState295).2.2 = 1 := by
    rw [getAIAnalysis_of_not_hit sampleOkEnv sampleRequest 305000 cexState295 hmiss,
        getAIAnalysisUncached_snd]
    exact tryOpenAI_snd_of_key sampleOkEnv sampleRequest "sk-test" rfl
  refine ⟨rfl, by rw [h1], ?_⟩
  rw [h1]
  dsimp only
  rw [h2]

/-- Claim C9 (amended): two calls to the narrative fetcher 10 seconds
apart with identical inputs, landing in the same 5-minute bucket, where
the first call starts from the empty cache and succeeds, issue exactly one
upstream request in total: the first call issues exactly one and the
second issues none, returning the cached narrative with the state
unchanged. -/
theorem narrative_two_calls_one_request (env1 env2 : OpenAIEnv)
    (request : AIAnalysisRequest) (now1 now2 : Nat) (st1 : AnalysisState)
    (r : AIAnalysisResponse) (n1 : Nat)
    (h10 : now2 = now1 + 10000)
    (hbucket : now1 / 300000 = now2 / 300000)
    (h1 : getAIAnalysis env1 request now1 emptyAnalysisState = (.ok r, st1, n1)) :
    n1 = 1 ∧ getAIAnalysis env2 request now2 st1 = (.ok r, st1, 0) := by
  have h1u : getAIAnalysisUncached env1 request now1 emptyAnalysisState
      (analysisCacheKey request now1) = (.ok r, st1, n1) := h1
  obtain ⟨hn, hr, hst⟩ := getAIAnalysisUncached_ok env1 request now1
    emptyAnalysisState st1 (analysisCacheKey request now1) r n1 h1u
  refine ⟨hn, ?_⟩
  have hkey := analysisCacheKey_congr request request now1 now2 rfl rfl rfl hbucket
  have hget : mapGet st1.analysisCache (analysisCacheKey request now2) =
      some { data := r, timestamp := now1 } := by
    rw [hst, ← hkey]
    exact mapGet_mapSet_self _ _ _
  have hfresh : now2 - now1 < CACHE_DURATION := by
    unfold CACHE_DURATION
    omega
  exact getAIAnalysis_hit env2 request now2 st1 { data := r, timestamp := now1 }
    hget hfresh

theorem narrative_two_calls_one_request_witness :
    (11000 : Nat) = 1000 + 10000 ∧ (1000 : Nat) / 300000 = 11000 / 300000
    ∧ AiAnalysis.getAIAnalysis sampleOkEnv sampleRequest 1000 emptyAnalysisState =
        (.ok sampleOkResponse, stateAfterFirstCall, 1)
    ∧ ((1 : Nat) = 1
       ∧ AiAnalysis.getAIAnalysis sampleOkEnv sampleRequest 11000 stateAfterFirstCall =
          (.ok sampleOkResponse, stateAfterFirstCall, 0)) :=
  ⟨by decide, by decide, rfl,
   narrative_two_calls_one_request sampleOkEnv sampleOkEnv sampleRequest
     1000 11000 stateAfterFirstCall sampleOkResponse 1 (by decide) (by decide) rfl⟩

end NarrativeClaims
